import Mathlib

set_option maxRecDepth 10000

/-!
Shallow embedding of `src/streamer.js` (kidslivestream): the stream-supervision
state machine — attempt/backoff accounting, health monitoring, process lifecycle
and content-rotation selection.  Module-level mutable variables of the source
(`streamAttempts`, `isStreamHealthy`, `lastStreamCheck`, `currentStream`,
`lastPlayedVideos`, `streamHealthCheck`) become fields of `StreamerState`;
each event handler and routine becomes a function on that state.  Times are
milliseconds as `Nat` (JS `Date.now()`); `Math.random()`-driven index draws
become explicit `Fin 145` arguments; the filesystem `fs.access` check becomes
an accessibility oracle `String → Bool`.
-/

/-- Whether `pat` matches the cs list at its start. -/
def atStart : List Char → List Char → Bool
  | [], _ => true
  | _ :: _, [] => false
  | p :: ps, c :: cs => (p == c) && atStart ps cs

/-- Whether `pat` occurs contiguously anywhere inside the list. -/
def subList (pat : List Char) : List Char → Bool
  | [] => atStart pat []
  | c :: cs => atStart pat (c :: cs) || subList pat cs

/-- Substring test: `true` when `pat` occurs inside `s` (models JS
`String.prototype.includes`, used by the classification in the error handler). -/
def containsSub (s pat : String) : Bool :=
  subList pat.toList s.toList

/-- Zero-pad a number to 3 digits: models `i.toString().padStart(3, '0')`
from `getRandomVideoFile`. -/
def pad3 (i : Nat) : String :=
  let s := toString i
  if s.length < 3 then String.mk (List.replicate (3 - s.length) '0') ++ s else s

/-- `MAX_STREAM_ATTEMPTS = 5` (streamer.js line 7). -/
def MAX_STREAM_ATTEMPTS : Nat := 5

/-- `STREAM_RETRY_DELAY = 10000` ms (streamer.js line 8). -/
def STREAM_RETRY_DELAY : Nat := 10000

/-- `HEALTH_CHECK_INTERVAL = 30000` ms (streamer.js line 11). -/
def HEALTH_CHECK_INTERVAL : Nat := 30000

/-- The catalog built by `getRandomVideoFile`: the loop
`for (let i = 0; i <= 144; i++) videoFiles.push(...)` pushes exactly the paths
`./assets/000.mp4` … `./assets/144.mp4`. -/
def videoFiles : List String :=
  (List.range 145).map (fun i => "./assets/" ++ pad3 i ++ ".mp4")

/-- The error message thrown by `getRandomVideoFile` when the selected file is
inaccessible (streamer.js line 30); note it claims the range runs through 159. -/
def notFoundMessage (selectedFile : String) : String :=
  "Video file " ++ selectedFile ++
    " not found. Please ensure all video files (000.mp4 through 159.mp4) are present in the assets directory."

/-- The `{ streamKey, streamUrl }` configuration object passed to `startStream`. -/
structure StreamConfig where
  streamKey : String
  streamUrl : String
deriving DecidableEq, Repr

/-- The module-level mutable state of streamer.js.  `currentStream` holds the
process handle (a `Nat` identifier) of the stream stored by the `start`
handler, or `none` when no handle has been stored; `currentConfig` records the
configuration captured by the current session's closures; `healthTimerActive`
models whether the `setInterval` health-check timer is running. -/
structure StreamerState where
  streamAttempts : Nat
  isStreamHealthy : Bool
  lastStreamCheck : Nat
  currentStream : Option Nat
  currentConfig : Option StreamConfig
  healthTimerActive : Bool
  lastPlayedVideos : Finset String
deriving DecidableEq

/-- `resetStreamState()` (streamer.js lines 38-42): zero the attempt counter,
mark healthy, stamp the check clock with `Date.now()` (passed as `now`). -/
def resetStreamState (s : StreamerState) (now : Nat) : StreamerState :=
  { s with streamAttempts := 0, isStreamHealthy := true, lastStreamCheck := now }

/-- The `.on('start', ...)` handler (streamer.js lines 134-147): store the new
handle in `currentStream`, set the health flag true, stamp the check clock,
start the health-check interval timer, and resolve the promise.  `cfg` is the
configuration captured by the handler's closure, `h` the new process handle,
`now` the value of `Date.now()`. -/
def onStarted (s : StreamerState) (cfg : Option StreamConfig) (h : Nat) (now : Nat) :
    StreamerState :=
  { s with currentStream := some h, isStreamHealthy := true, lastStreamCheck := now,
           currentConfig := cfg, healthTimerActive := true }

/-- `monitorStreamHealth()` (streamer.js lines 44-55).  Returns the updated
state together with the restart request it issues: `none` when no restart is
triggered, `some c` when `restartStream` is invoked with configuration
argument `c`.  The source calls `restartStream()` with no argument, so a
triggered request always carries `none`.  In both branches under the elapsed
check the source then executes `lastStreamCheck = now`. -/
def monitorStreamHealth (s : StreamerState) (now : Nat) :
    StreamerState × Option (Option StreamConfig) :=
  match s.currentStream with
  | some _ =>
    if HEALTH_CHECK_INTERVAL < now - s.lastStreamCheck then
      if s.isStreamHealthy then ({ s with lastStreamCheck := now }, none)
      else ({ s with lastStreamCheck := now }, some none)
    else (s, none)
  | none => (s, none)

/-- How the `await startStream(config)` inside `restartStream` settles:
`ok h t` means the promise resolved (the `started` event fired at time `t`
storing handle `h`), `err` means it rejected (for example the selection error
thrown before launch). -/
inductive StartOutcome where
  | ok (h : Nat) (t : Nat)
  | err
deriving DecidableEq

/-- What one invocation of `restartStream` did. -/
inductive RestartResult where
  /-- `streamAttempts >= MAX_STREAM_ATTEMPTS`: returned without starting. -/
  | refused
  /-- `startStream` resolved; `resetStreamState()` ran. -/
  | restarted
  /-- `startStream` rejected; a retry was scheduled after `STREAM_RETRY_DELAY`. -/
  | retryScheduled
deriving DecidableEq

/-- `restartStream(config)` (streamer.js lines 57-73): refuse when the attempt
counter has reached `MAX_STREAM_ATTEMPTS`; otherwise increment it and await
`startStream(config)` — on resolution (`started` event applied first by the
`start` handler) run `resetStreamState()`, on rejection schedule another
`restartStream(config)` after the retry delay. -/
def restartStream (s : StreamerState) (cfg : Option StreamConfig)
    (res : StartOutcome) : StreamerState × RestartResult :=
  if MAX_STREAM_ATTEMPTS ≤ s.streamAttempts then (s, RestartResult.refused)
  else
    let s1 := { s with streamAttempts := s.streamAttempts + 1 }
    match res with
    | StartOutcome.ok h t =>
        (resetStreamState (onStarted s1 cfg h t) t, RestartResult.restarted)
    | StartOutcome.err => (s1, RestartResult.retryScheduled)

/-- Iterates `restartStream` with a failing `startStream` `n` times: a streak
of `n` consecutive failed restart attempts with no intervening success. -/
def failStreak (s : StreamerState) (cfg : Option StreamConfig) : Nat → StreamerState
  | 0 => s
  | n + 1 => (restartStream (failStreak s cfg n) cfg StartOutcome.err).1

/-- The `.on('error', ...)` handler (streamer.js lines 148-159): set
`isStreamHealthy = false`, and schedule `restartStream({streamKey, streamUrl})`
after `STREAM_RETRY_DELAY` only when the error message includes `SIGKILL`,
`Connection refused` or `Connection timed out`.  The `Bool` returned is
whether a restart was scheduled. -/
def onError (s : StreamerState) (msg : String) : StreamerState × Bool :=
  ({ s with isStreamHealthy := false },
   containsSub msg "SIGKILL" || containsSub msg "Connection refused" ||
     containsSub msg "Connection timed out")

/-- The `.on('end', ...)` handler (streamer.js lines 161-168): set
`isStreamHealthy = false` and schedule `restartStream({streamKey, streamUrl})`
after `STREAM_RETRY_DELAY` unconditionally.  The `Bool` returned is whether a
restart was scheduled (always `true`). -/
def onEnd (s : StreamerState) : StreamerState × Bool :=
  ({ s with isStreamHealthy := false }, true)

/-- Result of the `if (currentStream) { try { kill; clearInterval } catch ... }`
section of `startStream` (streamer.js lines 96-103). -/
structure KillPhaseResult where
  state : StreamerState
  /-- `currentStream.kill('SIGTERM')` was invoked. -/
  killInvoked : Bool
  /-- `clearInterval(streamHealthCheck)` executed (skipped when `kill` throws,
  since the throw jumps to the `catch`). -/
  timerCleared : Bool
  /-- execution continues past the `catch` to create the new FFmpeg stream
  (always: the `catch` only logs). -/
  proceeds : Bool
deriving DecidableEq

/-- The previous-session teardown inside `startStream` (streamer.js lines
96-103): when a `currentStream` handle exists, try to kill it and clear the
health-check interval; a throw from `kill` (modelled by `killThrows`) is
caught and logged, leaving the interval uncleared, and execution proceeds to
establish the new stream either way. -/
def killPhase (s : StreamerState) (killThrows : Bool) : KillPhaseResult :=
  match s.currentStream with
  | none => ⟨s, false, false, true⟩
  | some _ =>
    if killThrows then ⟨s, true, false, true⟩
    else ⟨{ s with healthTimerActive := false }, true, true, true⟩

/-- State reached when an external `startStream(cfg)` call succeeds: the
teardown section runs, then the new session's `start` handler fires (storing
handle `h` at time `now`).  No `resetStreamState()` is involved on this path:
the source resets the attempt counter only inside `restartStream`. -/
def externalStartStarted (s : StreamerState) (killThrows : Bool)
    (cfg : StreamConfig) (h : Nat) (now : Nat) : StreamerState :=
  onStarted (killPhase s killThrows).state (some cfg) h now

/-- The rotation bookkeeping of `startStream` (streamer.js lines 87-92) after a
video path `v` is picked: `lastPlayedVideos.add(videoPath)` then
`if (lastPlayedVideos.size >= 61) lastPlayedVideos.clear()`. -/
def rotationStep (played : Finset String) (v : String) : Finset String :=
  let p := insert v played
  if 61 ≤ p.card then ∅ else p

/-- `getRandomVideoFile()` (streamer.js lines 13-32): index the catalog at the
random index (`Math.floor(Math.random() * videoFiles.length)`, passed here as
`randomIndex : Fin 145`), then check accessibility (`fs.access`, modelled by
the oracle `access`); an inaccessible file raises the not-found error at once. -/
def getRandomVideoFile (access : String → Bool) (randomIndex : Fin 145) :
    Except String String :=
  let selectedFile := videoFiles.getD randomIndex.val ""
  if access selectedFile then Except.ok selectedFile
  else Except.error (notFoundMessage selectedFile)

/-- The selection do-while loop of `startStream` (streamer.js lines 83-85):
`do { videoPath = await getRandomVideoFile(); } while
(lastPlayedVideos.has(videoPath) && lastPlayedVideos.size < 61)`.
`draws k` is the random index of the `k`-th call to `getRandomVideoFile`;
`fuel` bounds the number of iterations modelled (`none` = still looping). -/
def selectVideoAux (access : String → Bool) (played : Finset String)
    (draws : Nat → Fin 145) (k : Nat) : Nat → Option (Except String String)
  | 0 => none
  | fuel + 1 =>
    match getRandomVideoFile access (draws k) with
    | Except.error e => some (Except.error e)
    | Except.ok f =>
      if f ∈ played ∧ played.card < 61 then
        selectVideoAux access played draws (k + 1) fuel
      else some (Except.ok f)

/-- The selection loop started at draw 0. -/
def selectVideo (access : String → Bool) (played : Finset String)
    (draws : Nat → Fin 145) (fuel : Nat) : Option (Except String String) :=
  selectVideoAux access played draws 0 fuel

/-- Modelled from the claim's wording, for comparison with `selectVideo`: draw
an id, redraw while it is in RecentlyPlayed and the set is below capacity,
and only once an id is chosen verify existence (raising if inaccessible). -/
def selectVideoClaimAux (access : String → Bool) (played : Finset String)
    (draws : Nat → Fin 145) (k : Nat) : Nat → Option (Except String String)
  | 0 => none
  | fuel + 1 =>
    let f := videoFiles.getD (draws k).val ""
    if f ∈ played ∧ played.card < 61 then
      selectVideoClaimAux access played draws (k + 1) fuel
    else if access f then some (Except.ok f)
    else some (Except.error (notFoundMessage f))

/-- The claim's selection algorithm started at draw 0. -/
def selectVideoClaim (access : String → Bool) (played : Finset String)
    (draws : Nat → Fin 145) (fuel : Nat) : Option (Except String String) :=
  selectVideoClaimAux access played draws 0 fuel

/-- A lifecycle event of the FFmpeg stream delivered to the handlers installed
by `startStream`. -/
inductive FfmpegEvent where
  | started
  | errored (msg : String)
  | ended
deriving DecidableEq

/-- How the promise returned by `startStream` settled. -/
inductive Settlement where
  | resolved
  | rejected (msg : String)
deriving DecidableEq

/-- Settlement of the `new Promise(...)` of `startStream` (streamer.js lines
105-171) as a function of the stream's event trace: `resolve()` is called only
by the `start` handler; the `error` and `end` handlers call neither `resolve`
nor `reject` (no `reject` call exists in the executor), so the promise stays
pending (`none`) on a trace without a `started` event. -/
def promiseSettlement : List FfmpegEvent → Option Settlement
  | [] => none
  | FfmpegEvent.started :: _ => some Settlement.resolved
  | FfmpegEvent.errored _ :: rest => promiseSettlement rest
  | FfmpegEvent.ended :: rest => promiseSettlement rest

/-- Settlement of the whole `startStream` call: since `startStream` is an
`async` function, an exception thrown before the promise is created (the
selection error of `getRandomVideoFile`, `sel = .error e`) rejects the
returned promise; otherwise the returned promise settles exactly as the inner
executor does on the event trace. -/
def startStreamOutcome (sel : Except String String)
    (events : List FfmpegEvent) : Option Settlement :=
  match sel with
  | Except.error e => some (Settlement.rejected e)
  | Except.ok _ => promiseSettlement events

/-- Destructuring `config.streamKey` where `config : Option StreamConfig`
models a possibly-`undefined` argument. -/
def configStreamKey : Option StreamConfig → Option String
  | none => none
  | some c => some c.streamKey

/-- Destructuring `config.streamUrl` where `config : Option StreamConfig`
models a possibly-`undefined` argument. -/
def configStreamUrl : Option StreamConfig → Option String
  | none => none
  | some c => some c.streamUrl

/-- A sample configuration (spec §8 scenario 6). -/
def cfgAbc : StreamConfig := ⟨"abc", "rtmp://host"⟩

/-- The initial module state of streamer.js: counters at their declared
initial values, no stream yet. -/
def freshState : StreamerState :=
  { streamAttempts := 0, isStreamHealthy := true, lastStreamCheck := 0,
    currentStream := none, currentConfig := none, healthTimerActive := false,
    lastPlayedVideos := ∅ }

/-- A live healthy session: handle 7 stored, health flag true. -/
def liveState : StreamerState :=
  { streamAttempts := 0, isStreamHealthy := true, lastStreamCheck := 1000,
    currentStream := some 7, currentConfig := some cfgAbc,
    healthTimerActive := true, lastPlayedVideos := ∅ }

/-- A live session already marked unhealthy by a `failed`/`ended` event. -/
def liveUnhealthyState : StreamerState :=
  { streamAttempts := 2, isStreamHealthy := false, lastStreamCheck := 1000,
    currentStream := some 7, currentConfig := some cfgAbc,
    healthTimerActive := true, lastPlayedVideos := ∅ }

/-- A state after the attempt counter has reached `MAX_STREAM_ATTEMPTS`:
automatic restarts are refused, awaiting manual intervention. -/
def haltedState : StreamerState :=
  { streamAttempts := 5, isStreamHealthy := false, lastStreamCheck := 0,
    currentStream := none, currentConfig := none, healthTimerActive := false,
    lastPlayedVideos := ∅ }

/-- A draw sequence: index 0 first, index 1 on every redraw. -/
def drawsCE : Nat → Fin 145 := fun k => if k = 0 then 0 else 1

/-- An accessibility oracle under which only `./assets/000.mp4` is missing. -/
def accessCE : String → Bool := fun f => !(f == "./assets/000.mp4")

/-- A recently-played set already holding `./assets/000.mp4`. -/
def playedCE : Finset String := {"./assets/000.mp4"}

/-- C10: the catalog consulted by `getRandomVideoFile` is exactly the 145 paths
`./assets/000.mp4` through `./assets/144.mp4` (ids 0..144, zero-padded to 3
digits), with no 145th or 159th entry — even though the not-found message
speaks of files through `159.mp4`. -/
theorem c10_catalog_contents :
    videoFiles.length = 145 ∧
    (∀ i : Fin 145, videoFiles.getD i.val "" = "./assets/" ++ pad3 i.val ++ ".mp4") ∧
    videoFiles.getD 0 "" = "./assets/000.mp4" ∧
    videoFiles.getD 144 "" = "./assets/144.mp4" ∧
    videoFiles.contains "./assets/145.mp4" = false ∧
    videoFiles.contains "./assets/159.mp4" = false ∧
    containsSub (notFoundMessage "./assets/000.mp4") "159" = true := by
  decide

/-- C5: the RecentlyPlayed set never exceeds the rotation capacity R = 61
(itself below the catalog size): an insert adds at most one element, the
transient size after the insert is at most 61, and whenever it reaches 61 the
set is cleared entirely, so at most 60 elements remain before any later pick. -/
theorem c5_rotation_bounded :
    ∀ (played : Finset String) (v : String), played.card ≤ 60 →
      (insert v played).card ≤ played.card + 1 ∧
      (insert v played).card ≤ 61 ∧
      (61 ≤ (insert v played).card → rotationStep played v = ∅) ∧
      (rotationStep played v).card ≤ 60 ∧
      61 < videoFiles.length := by
  intro played v hcard
  have hins : (insert v played).card ≤ played.card + 1 := Finset.card_insert_le v played
  have h1 : (insert v played).card ≤ 61 := by omega
  refine ⟨hins, h1, ?_, ?_, by decide⟩
  · intro h61
    show (if 61 ≤ (insert v played).card then (∅ : Finset String) else insert v played) = ∅
    rw [if_pos h61]
  · show (if 61 ≤ (insert v played).card then (∅ : Finset String) else insert v played).card ≤ 60
    by_cases h61 : 61 ≤ (insert v played).card
    · rw [if_pos h61]; simp
    · rw [if_neg h61]; omega

/-- Witness for C5 at the empty set and the first catalog path. -/
theorem c5_rotation_witness :
    (∅ : Finset String).card ≤ 60 ∧
    ((insert "./assets/000.mp4" (∅ : Finset String)).card ≤ (∅ : Finset String).card + 1 ∧
     (insert "./assets/000.mp4" (∅ : Finset String)).card ≤ 61 ∧
     (61 ≤ (insert "./assets/000.mp4" (∅ : Finset String)).card →
        rotationStep ∅ "./assets/000.mp4" = ∅) ∧
     (rotationStep ∅ "./assets/000.mp4").card ≤ 60 ∧
     61 < videoFiles.length) :=
  ⟨by decide, c5_rotation_bounded ∅ "./assets/000.mp4" (by decide)⟩

/-- C4: the health monitor triggers a restart iff a current session exists,
the health flag is false and more than `HEALTH_CHECK_INTERVAL` ms have elapsed
since the last check; and the monitor never changes the health flag itself (in
particular it never sets it to false). -/
theorem c4_health_monitor_trigger :
    ∀ (s : StreamerState) (now : Nat),
      ((monitorStreamHealth s now).2.isSome = true ↔
        (s.currentStream.isSome = true ∧ s.isStreamHealthy = false ∧
          HEALTH_CHECK_INTERVAL < now - s.lastStreamCheck)) ∧
      (monitorStreamHealth s now).1.isStreamHealthy = s.isStreamHealthy := by
  intro s now
  rcases s with ⟨a, hl, lc, cs, cc, ht, lp⟩
  cases cs with
  | none => simp [monitorStreamHealth]
  | some h =>
    by_cases hlt : HEALTH_CHECK_INTERVAL < now - lc
    · cases hl <;> simp [monitorStreamHealth, hlt]
    · cases hl <;> simp [monitorStreamHealth, hlt]

/-- Witness for C4 at an unhealthy live session, 39 s past the last check. -/
theorem c4_health_monitor_witness :
    (((monitorStreamHealth liveUnhealthyState 40000).2.isSome = true ↔
        (liveUnhealthyState.currentStream.isSome = true ∧
          liveUnhealthyState.isStreamHealthy = false ∧
          HEALTH_CHECK_INTERVAL < 40000 - liveUnhealthyState.lastStreamCheck)) ∧
      (monitorStreamHealth liveUnhealthyState 40000).1.isStreamHealthy =
        liveUnhealthyState.isStreamHealthy) :=
  c4_health_monitor_trigger liveUnhealthyState 40000

/-- C1 counterexample: a successful start initiated by an external
`startStream` call while halted (`streamAttempts = 5`) leaves the attempt
counter at 5, not 0 — the `started` event does not reset it. -/
theorem c1_external_start_counterexample :
    (externalStartStarted haltedState false cfgAbc 9 50000).streamAttempts = 5 ∧
    ¬ (externalStartStarted haltedState false cfgAbc 9 50000).streamAttempts = 0 := by
  decide

/-- C1 (amended): the `started` event handler leaves the attempt counter
unchanged — also through a full external `startStream` success — and the reset
to 0 happens only via `resetStreamState`, which `restartStream` runs after its
awaited `startStream` resolves. -/
theorem c1_reset_only_in_restart :
    ∀ (s : StreamerState) (kt : Bool) (cfg : StreamConfig) (ocfg : Option StreamConfig)
      (h now : Nat),
      (externalStartStarted s kt cfg h now).streamAttempts = s.streamAttempts ∧
      (onStarted s ocfg h now).streamAttempts = s.streamAttempts ∧
      (s.streamAttempts < MAX_STREAM_ATTEMPTS →
        (restartStream s ocfg (StartOutcome.ok h now)).1.streamAttempts = 0) := by
  intro s kt cfg ocfg h now
  refine ⟨?_, rfl, ?_⟩
  · rcases s with ⟨a, hl, lc, cs, cc, ht, lp⟩
    cases cs <;> cases kt <;> simp [externalStartStarted, killPhase, onStarted]
  · intro hlt
    unfold restartStream
    rw [if_neg (by omega)]
    rfl

/-- Witness for the C1 amendment: a restart from the fresh state whose
`startStream` resolves ends with the counter at 0. -/
theorem c1_reset_witness :
    freshState.streamAttempts < MAX_STREAM_ATTEMPTS ∧
    (restartStream freshState (some cfgAbc) (StartOutcome.ok 9 1234)).1.streamAttempts = 0 :=
  ⟨by decide,
   (c1_reset_only_in_restart freshState false cfgAbc (some cfgAbc) 9 1234).2.2 (by decide)⟩

/-- C2 counterexample: a `failed` event whose message matches none of
`SIGKILL` / `Connection refused` / `Connection timed out` schedules no
restart (while a matching one does) — classification decides whether a retry
happens, not only logging. -/
theorem c2_unclassified_error_counterexample :
    (onError liveState "Error: out of memory").2 = false ∧
    (onError liveState "Connection refused").2 = true ∧
    (onError liveState "Error: out of memory").1.isStreamHealthy = false := by
  decide

/-- C2 (amended): an `ended` event always schedules a restart and marks the
stream unhealthy; a `failed` event marks the stream unhealthy but schedules a
restart iff its message contains `SIGKILL`, `Connection refused` or
`Connection timed out`. -/
theorem c2_restart_scheduling :
    ∀ (s : StreamerState) (msg : String),
      (onEnd s).2 = true ∧
      (onEnd s).1.isStreamHealthy = false ∧
      (onError s msg).1.isStreamHealthy = false ∧
      ((onError s msg).2 = true ↔
        (containsSub msg "SIGKILL" = true ∨ containsSub msg "Connection refused" = true ∨
          containsSub msg "Connection timed out" = true)) := by
  intro s msg
  refine ⟨rfl, rfl, rfl, ?_⟩
  simp [onError, Bool.or_eq_true, or_assoc]

/-- Witness for the C2 amendment at a transient-classified message. -/
theorem c2_restart_witness :
    (onEnd liveState).2 = true ∧
    (onEnd liveState).1.isStreamHealthy = false ∧
    (onError liveState "Connection refused").1.isStreamHealthy = false ∧
    ((onError liveState "Connection refused").2 = true ↔
      (containsSub "Connection refused" "SIGKILL" = true ∨
       containsSub "Connection refused" "Connection refused" = true ∨
       containsSub "Connection refused" "Connection timed out" = true)) :=
  c2_restart_scheduling liveState "Connection refused"

/-- A restart invocation with the counter at `MAX_STREAM_ATTEMPTS` returns at
once, starting nothing and leaving the state unchanged. -/
lemma restartStream_refused (s : StreamerState) (cfg : Option StreamConfig)
    (res : StartOutcome) (h : MAX_STREAM_ATTEMPTS ≤ s.streamAttempts) :
    restartStream s cfg res = (s, RestartResult.refused) := by
  unfold restartStream
  rw [if_pos h]

/-- Each failed restart attempt below the cap increments the counter by one. -/
lemma failStreak_attempts (s : StreamerState) (cfg : Option StreamConfig) :
    ∀ n, s.streamAttempts + n ≤ MAX_STREAM_ATTEMPTS →
      (failStreak s cfg n).streamAttempts = s.streamAttempts + n := by
  intro n
  induction n with
  | zero => intro _; rfl
  | succ k ih =>
    intro h
    have hk := ih (by omega)
    show (restartStream (failStreak s cfg k) cfg StartOutcome.err).1.streamAttempts = _
    unfold restartStream
    rw [if_neg (by omega)]
    show (failStreak s cfg k).streamAttempts + 1 = s.streamAttempts + (k + 1)
    omega

/-- Once the counter is at the cap, any number of further automatic restart
invocations leaves the state untouched. -/
lemma failStreak_fixed (s : StreamerState) (cfg : Option StreamConfig)
    (h : MAX_STREAM_ATTEMPTS ≤ s.streamAttempts) :
    ∀ n, failStreak s cfg n = s := by
  intro n
  induction n with
  | zero => rfl
  | succ k ih =>
    show (restartStream (failStreak s cfg k) cfg StartOutcome.err).1 = s
    rw [ih, restartStream_refused s cfg StartOutcome.err h]

/-- C3: after exactly `MAX_STREAM_ATTEMPTS` (5) consecutive failed start
attempts from a zero counter with no intervening success, the counter is at
the cap and every subsequent automatic `restartStream` invocation returns
refused without starting a new session, leaving the state unchanged for any
number of further automatic invocations. -/
theorem c3_halt_after_five :
    ∀ (s : StreamerState) (cfg : Option StreamConfig), s.streamAttempts = 0 →
      (failStreak s cfg 5).streamAttempts = MAX_STREAM_ATTEMPTS ∧
      (∀ (cfg2 : Option StreamConfig) (res : StartOutcome),
        restartStream (failStreak s cfg 5) cfg2 res =
          (failStreak s cfg 5, RestartResult.refused)) ∧
      (∀ n, failStreak (failStreak s cfg 5) cfg n = failStreak s cfg 5) := by
  intro s cfg h0
  have hmax : MAX_STREAM_ATTEMPTS = 5 := rfl
  have hatt : (failStreak s cfg 5).streamAttempts = MAX_STREAM_ATTEMPTS := by
    have h5 := failStreak_attempts s cfg 5 (by omega)
    omega
  refine ⟨hatt, ?_, ?_⟩
  · intro cfg2 res
    exact restartStream_refused _ cfg2 res hatt.ge
  · intro n
    exact failStreak_fixed _ cfg hatt.ge n

/-- Witness for C3 from the fresh state. -/
theorem c3_halt_witness :
    freshState.streamAttempts = 0 ∧
    (failStreak freshState (some cfgAbc) 5).streamAttempts = MAX_STREAM_ATTEMPTS ∧
    restartStream (failStreak freshState (some cfgAbc) 5) none StartOutcome.err =
      (failStreak freshState (some cfgAbc) 5, RestartResult.refused) := by
  obtain ⟨h1, h2, -⟩ := c3_halt_after_five freshState (some cfgAbc) rfl
  exact ⟨rfl, h1, h2 none StartOutcome.err⟩

/-- C6: during `startStream` teardown, whenever a current handle exists its
kill is invoked; when the kill does not throw the health-check timer is
cleared; execution proceeds to establish the new session in every case (a
termination error is only logged); and the new session's `start` handler
stores exactly the new handle as the current stream. -/
theorem c6_single_session :
    ∀ (s : StreamerState) (killThrows : Bool) (cfg : Option StreamConfig) (h now : Nat),
      (killPhase s killThrows).proceeds = true ∧
      (s.currentStream.isSome = true → (killPhase s killThrows).killInvoked = true) ∧
      (s.currentStream = none → (killPhase s killThrows).killInvoked = false) ∧
      (s.currentStream.isSome = true → killThrows = false →
        (killPhase s killThrows).timerCleared = true ∧
        (killPhase s killThrows).state.healthTimerActive = false) ∧
      (onStarted (killPhase s killThrows).state cfg h now).currentStream = some h := by
  intro s kt cfg h now
  rcases s with ⟨a, hl, lc, cs, cc, ht, lp⟩
  cases cs <;> cases kt <;> simp [killPhase, onStarted]

/-- Witness for C6 at a live session with a non-throwing kill. -/
theorem c6_single_session_witness :
    (killPhase liveState false).proceeds = true ∧
    (killPhase liveState false).killInvoked = true ∧
    (killPhase liveState false).timerCleared = true ∧
    (killPhase liveState false).state.healthTimerActive = false ∧
    (onStarted (killPhase liveState false).state (some cfgAbc) 9 2000).currentStream =
      some 9 := by
  have h := c6_single_session liveState false (some cfgAbc) 9 2000
  exact ⟨h.1, h.2.1 (by decide), (h.2.2.2.1 (by decide) rfl).1,
    (h.2.2.2.1 (by decide) rfl).2, h.2.2.2.2⟩

/-- A draw that `getRandomVideoFile` returns passed the accessibility check
and is the catalog entry at the drawn index. -/
lemma getRandomVideoFile_ok (access : String → Bool) (i : Fin 145) (f : String)
    (h : getRandomVideoFile access i = Except.ok f) :
    access f = true ∧ f = videoFiles.getD i.val "" := by
  simp only [getRandomVideoFile] at h
  split at h
  · next hacc => injection h with hf; subst hf; exact ⟨hacc, rfl⟩
  · next => exact Except.noConfusion h

/-- Any file returned by the selection loop is accessible and not subject to
the redraw condition. -/
lemma selectVideoAux_ok (access : String → Bool) (played : Finset String)
    (draws : Nat → Fin 145) :
    ∀ (fuel k : Nat) (f : String),
      selectVideoAux access played draws k fuel = some (Except.ok f) →
      access f = true ∧ ¬(f ∈ played ∧ played.card < 61) := by
  intro fuel
  induction fuel with
  | zero => intro k f h; exact Option.noConfusion h
  | succ n ih =>
    intro k f h
    unfold selectVideoAux at h
    split at h
    · next e heq => simp at h
    · next g heq =>
      split at h
      · next hc => exact ih (k + 1) f h
      · next hc =>
        injection h with hf
        injection hf with hgf
        subst hgf
        obtain ⟨ha, -⟩ := getRandomVideoFile_ok access (draws k) g heq
        exact ⟨ha, hc⟩

/-- C7 (amended): each draw of the selection loop is verified for existence
inside `getRandomVideoFile` before the redraw test — an inaccessible first
draw raises the not-found error immediately, even when it is in RecentlyPlayed
below capacity and would have been redrawn — and a returned id is accessible
and not subject to the redraw condition. -/
theorem c7_selection_verifies_each_draw :
    ∀ (access : String → Bool) (played : Finset String) (draws : Nat → Fin 145)
      (fuel : Nat),
      (access (videoFiles.getD (draws 0).val "") = false →
        selectVideo access played draws (fuel + 1) =
          some (Except.error (notFoundMessage (videoFiles.getD (draws 0).val "")))) ∧
      (∀ f, selectVideo access played draws fuel = some (Except.ok f) →
        access f = true ∧ ¬(f ∈ played ∧ played.card < 61)) := by
  intro access played draws fuel
  constructor
  · intro hacc
    have hg : getRandomVideoFile access (draws 0) =
        Except.error (notFoundMessage (videoFiles.getD (draws 0).val "")) := by
      simp only [getRandomVideoFile]
      rw [hacc]
      simp
    unfold selectVideo selectVideoAux
    rw [hg]
  · intro f h
    exact selectVideoAux_ok access played draws fuel 0 f h

/-- C7 counterexample: with `./assets/000.mp4` recently played and
inaccessible while the set is below capacity, the source selection raises the
not-found error on that discarded first draw, whereas the claim's algorithm
(redraw first, verify only the chosen id) returns `./assets/001.mp4`. -/
theorem c7_verify_order_counterexample :
    selectVideo accessCE playedCE drawsCE 2 =
      some (Except.error (notFoundMessage "./assets/000.mp4")) ∧
    selectVideoClaim accessCE playedCE drawsCE 2 =
      some (Except.ok "./assets/001.mp4") ∧
    "./assets/000.mp4" ∈ playedCE ∧ playedCE.card < 61 ∧
    accessCE "./assets/000.mp4" = false :=
  ⟨rfl, rfl, by decide, by decide, by decide⟩

/-- Witness for the C7 amendment at the counterexample inputs. -/
theorem c7_selection_witness :
    accessCE (videoFiles.getD (drawsCE 0).val "") = false ∧
    selectVideo accessCE playedCE drawsCE (1 + 1) =
      some (Except.error (notFoundMessage (videoFiles.getD (drawsCE 0).val ""))) :=
  ⟨by decide, (c7_selection_verifies_each_draw accessCE playedCE drawsCE 1).1 (by decide)⟩

/-- C8: whenever the health monitor triggers a restart, the configuration it
passes to `restartStream` is `none` (JS `undefined`): the `startStream` it
re-enters receives no `streamKey` and no `streamUrl`, never the current
session's configuration. -/
theorem c8_monitor_restart_config :
    ∀ (s : StreamerState) (now : Nat) (c : Option StreamConfig),
      (monitorStreamHealth s now).2 = some c →
        c = none ∧ configStreamKey c = none ∧ configStreamUrl c = none ∧
        (∀ cfg : StreamConfig, s.currentConfig = some cfg → c ≠ some cfg) := by
  intro s now c h
  have hc : c = none := by
    rcases s with ⟨a, hl, lc, cs, cc, ht, lp⟩
    cases cs with
    | none => simp [monitorStreamHealth] at h
    | some hd =>
      by_cases hlt : HEALTH_CHECK_INTERVAL < now - lc
      · cases hl with
        | true => simp [monitorStreamHealth, hlt] at h
        | false =>
          simp [monitorStreamHealth, hlt] at h
          exact h.symm
      · simp [monitorStreamHealth, hlt] at h
  subst hc
  exact ⟨rfl, rfl, rfl, fun cfg _ => by simp⟩

/-- Witness for C8 at an unhealthy live session holding a configuration. -/
theorem c8_monitor_restart_witness :
    (monitorStreamHealth liveUnhealthyState 40000).2 = some none ∧
    (none : Option StreamConfig) = none ∧
    configStreamKey none = none ∧ configStreamUrl none = none ∧
    (none : Option StreamConfig) ≠ some cfgAbc := by
  have h := c8_monitor_restart_config liveUnhealthyState 40000 none (by decide)
  exact ⟨by decide, h.1, h.2.1, h.2.2.1, h.2.2.2 cfgAbc (by decide)⟩

/-- The promise executor resolves only at a `started` event, never produces a
rejection, and stays pending on a trace without a `started` event. -/
lemma promiseSettlement_cases :
    ∀ evs : List FfmpegEvent,
      (promiseSettlement evs = some Settlement.resolved → FfmpegEvent.started ∈ evs) ∧
      (∀ m, promiseSettlement evs ≠ some (Settlement.rejected m)) ∧
      (FfmpegEvent.started ∉ evs → promiseSettlement evs = none) := by
  intro evs
  induction evs with
  | nil =>
    refine ⟨?_, ?_, ?_⟩
    · intro h; exact Option.noConfusion h
    · intro m h; exact Option.noConfusion h
    · intro _; rfl
  | cons e rest ih =>
    cases e with
    | started =>
      refine ⟨?_, ?_, ?_⟩
      · intro _; exact List.mem_cons_self _ _
      · intro m h
        simp [promiseSettlement] at h
      · intro hn
        exact absurd (List.mem_cons_self _ _) hn
    | errored m0 =>
      refine ⟨?_, ?_, ?_⟩
      · intro h
        exact List.mem_cons_of_mem _ (ih.1 h)
      · intro m h
        exact ih.2.1 m h
      · intro hn
        exact ih.2.2 (fun hm => hn (List.mem_cons_of_mem _ hm))
    | ended =>
      refine ⟨?_, ?_, ?_⟩
      · intro h
        exact List.mem_cons_of_mem _ (ih.1 h)
      · intro m h
        exact ih.2.1 m h
      · intro hn
        exact ih.2.2 (fun hm => hn (List.mem_cons_of_mem _ hm))

/-- C9: the promise returned by `startStream` resolves only via a `started`
event, rejects only with the pre-launch selection error, and on a trace of
`error`/`end` events with no `started` event it never settles — a caller
awaiting it waits forever. -/
theorem c9_promise_settlement :
    ∀ (sel : Except String String) (events : List FfmpegEvent),
      (startStreamOutcome sel events = some Settlement.resolved →
        FfmpegEvent.started ∈ events) ∧
      (∀ e, startStreamOutcome sel events = some (Settlement.rejected e) →
        sel = Except.error e) ∧
      (∀ p, sel = Except.ok p → FfmpegEvent.started ∉ events →
        startStreamOutcome sel events = none) := by
  intro sel events
  cases sel with
  | error e =>
    refine ⟨?_, ?_, ?_⟩
    · intro h; simp [startStreamOutcome] at h
    · intro m h
      simp [startStreamOutcome] at h
      rw [h]
    · intro p hp; exact Except.noConfusion hp
  | ok p0 =>
    refine ⟨?_, ?_, ?_⟩
    · intro h
      exact (promiseSettlement_cases events).1 h
    · intro m h
      exact absurd h ((promiseSettlement_cases events).2.1 m)
    · intro p _ hn
      exact (promiseSettlement_cases events).2.2 hn

/-- Witness for C9: with a successful selection and a trace holding only an
`error` and an `end` event, the promise never settles. -/
theorem c9_promise_witness :
    FfmpegEvent.started ∉ [FfmpegEvent.errored "boom", FfmpegEvent.ended] ∧
    startStreamOutcome (Except.ok "./assets/000.mp4")
      [FfmpegEvent.errored "boom", FfmpegEvent.ended] = none :=
  ⟨by decide,
   (c9_promise_settlement (Except.ok "./assets/000.mp4")
      [FfmpegEvent.errored "boom", FfmpegEvent.ended]).2.2 "./assets/000.mp4" rfl
      (by decide)⟩
